import Mathlib

/-!
# Shallow embedding of the chatbot proxy service

This file embeds the single-file FastAPI service of the repository
(`main.py`): a `POST /chat` handler that resolves an OpenRouter API key
from four possible sources, forwards the chat request to the fixed
OpenRouter endpoint, and reshapes the upstream response, plus a trivial
`GET /test` health check.

Modelling conventions:

* JSON values are an inductive `Json`; objects are ordered key/value
  lists, mirroring CPython dict insertion order.  Numbers are rationals.
* Python string truthiness (`None` and `""` falsy) is `pyTruthy`; the
  `a or b or ...` chain over optional strings is `pyOrStr`.
* `str.lower()` is modelled on ASCII letters (the only ones relevant to
  the `"bearer "` prefix test), `str.strip()` strips ASCII whitespace,
  and `s.split(" ", 1)[1]` is `afterFirstSpace` (total; every caller
  guards on a prefix that guarantees a space is present).
* The outbound HTTP layer (`requests.post`) is a function argument
  `net : OutboundRequest → UpstreamResult`; `r.json()` either yields a
  parsed `Json` or raises, hence `jsonBody : Option Json`.  The handler
  records the request it sent (if any) and how many upstream calls it
  made, so "never attempts the outbound call" and "no retry" are
  observable.
* An exception escaping the handler uncaught (the `r.json()` call on a
  success-status response sits outside every `try`) is the outcome
  `jsonDecodeError`, distinct from every `HTTPException` outcome.
-/

namespace ChatProxy

/-- JSON values, as parsed by `r.json()` and serialized into request
payloads.  Objects are ordered association lists (CPython dicts). -/
inductive Json where
  | null
  | bool (b : Bool)
  | num (q : Rat)
  | str (s : String)
  | arr (items : List Json)
  | obj (fields : List (String × Json))

/-- Python truthiness of an `Optional[str]` value: `None` and the empty
string are falsy, every other string is truthy. -/
def pyTruthy : Option String → Bool
  | none => false
  | some s => s != ""

/-- Python `a or b` on `Optional[str]` operands: returns `a` when `a`
is truthy, otherwise `b` (whatever it is). -/
def pyOrStr (a b : Option String) : Option String :=
  if pyTruthy a then a else b

/-- Characters stripped by Python `str.strip()` (ASCII whitespace). -/
def isPySpace (c : Char) : Bool :=
  c == ' ' || c == '\t' || c == '\n' || c == '\r' || c == '\x0b' || c == '\x0c'

/-- Python `str.strip()` on a character list: drop leading and trailing
whitespace. -/
def pyStripList (cs : List Char) : List Char :=
  ((cs.dropWhile isPySpace).reverse.dropWhile isPySpace).reverse

/-- Python `str.strip()`. -/
def pyStrip (s : String) : String :=
  String.mk (pyStripList s.toList)

/-- Python `str.lower()`, modelled on ASCII letters (sufficient for the
case-insensitive `"bearer "` prefix test, whose prefix is ASCII). -/
def pyLower (s : String) : String :=
  String.mk (s.toList.map Char.toLower)

/-- Whether the second list is a prefix of the first (Python
`str.startswith`). -/
def hasPrefixList : List Char → List Char → Bool
  | _, [] => true
  | [], _ :: _ => false
  | c :: cs, p :: ps => c == p && hasPrefixList cs ps

/-- Everything after the first space of the list (Python
`s.split(" ", 1)[1]`).  Total: yields `[]` when no space occurs; the one
caller guards on a `"bearer "` prefix, which guarantees a space. -/
def afterFirstSpaceList : List Char → List Char
  | [] => []
  | c :: rest => if c == ' ' then rest else afterFirstSpaceList rest

/-- Python `s.split(" ", 1)[1]` on strings. -/
def afterFirstSpace (s : String) : String :=
  String.mk (afterFirstSpaceList s.toList)

/-- Process environment: the three variables the service reads.  `none`
means the variable is unset (`os.getenv` returns `None`). -/
structure Env where
  OPENROUTER_API_KEY : Option String
  APP_URL : Option String
  APP_NAME : Option String

/-- `class Message(BaseModel)`: one chat message. -/
structure Message where
  role : String
  content : String

/-- `class ChatRequest(BaseModel)`: the validated `POST /chat` body.
Defaults (`model = "openai/gpt-4o-mini"`, `temperature = 0.7`,
`top_p = 1.0`) are applied by validation before the handler runs, so the
fields here hold post-validation values; `temperature`/`top_p` may be
explicit JSON nulls (`Optional[float]`), `extra` is an optional dict of
arbitrary JSON values. -/
structure ChatRequest where
  messages : List Message
  model : String
  temperature : Option Rat
  top_p : Option Rat
  api_key : Option String
  extra : Option (List (String × Json))

/-- `class ChatResponse(BaseModel)`.  The `model` field carries the JSON
value taken from the upstream body (`data.get("model", req.model)`),
which is a string in every well-formed upstream response. -/
structure ChatResponse where
  reply : String
  model : Json

/-- What one `requests.post` call can produce: a raised
`requests.RequestException` (transport failure), or an HTTP response
with a status code, the result of `r.json()` (`none` when the body is
not valid JSON, so `r.json()` raises), and the raw `r.text`. -/
inductive UpstreamResult where
  | transportError (message : String)
  | response (statusCode : Nat) (jsonBody : Option Json) (text : String)

/-- The outbound HTTP request the handler constructs. -/
structure OutboundRequest where
  url : String
  httpHeaders : List (String × String)
  payload : Json
  timeoutSeconds : Nat

/-- How the `POST /chat` handler terminates: a `ChatResponse`, a raised
`HTTPException(status_code, detail)`, or an uncaught JSON-decoding
exception (from `r.json()` on a success-status non-JSON body, which no
`try` block covers). -/
inductive HandlerOutcome where
  | ok (response : ChatResponse)
  | httpError (statusCode : Nat) (detail : Json)
  | jsonDecodeError

/-- Observable result of one handler run: the outcome, the outbound
request sent (if any), and the number of upstream calls made. -/
structure ChatResult where
  outcome : HandlerOutcome
  sentRequest : Option OutboundRequest
  upstreamCalls : Nat

/-- The `detail` string of the HTTP 400 raised when no key resolves
(the two adjacent string literals of the source concatenated). -/
def missingKeyDetail : String :=
  "OpenRouter API key not provided. Add 'api_key' in JSON body, or set 'OPENROUTER_API_KEY' env var, or send header 'x-openrouter-key: <key>' or 'Authorization: Bearer <key>'."

/-- The `bearer_key` computation: when the `Authorization` header is
truthy and starts (case-insensitively) with `"bearer "`, the part after
the first space, stripped; otherwise nothing. -/
def bearerKey (authorization : Option String) : Option String :=
  match authorization with
  | none => none
  | some a =>
    if a != "" && hasPrefixList (pyLower a).toList ("bearer ".toList) then
      some (pyStrip (afterFirstSpace a))
    else
      none

/-- The `api_key` or-chain plus the `if not api_key` guard: `some` of
the first truthy source in the order body field, environment variable,
`x-openrouter-key` header, Bearer token; `none` when all are falsy. -/
def resolveApiKey (req : ChatRequest) (env : Env)
    (x_openrouter_key authorization : Option String) : Option String :=
  let bearer_key := bearerKey authorization
  let api_key :=
    pyOrStr (pyOrStr (pyOrStr req.api_key env.OPENROUTER_API_KEY) x_openrouter_key) bearer_key
  if pyTruthy api_key then api_key else none

/-- `m.dict()` for a `Message`. -/
def messageJson (m : Message) : Json :=
  Json.obj [("role", Json.str m.role), ("content", Json.str m.content)]

/-- JSON serialization of an `Optional[float]` field. -/
def optRatJson : Option Rat → Json
  | none => Json.null
  | some q => Json.num q

/-- The payload dict before the `extra` merge. -/
def basePayload (req : ChatRequest) : List (String × Json) :=
  [("model", Json.str req.model),
   ("messages", Json.arr (req.messages.map messageJson)),
   ("temperature", optRatJson req.temperature),
   ("top_p", optRatJson req.top_p)]

/-- CPython `base.update(extra)` on dicts with distinct keys: keys
already in `base` keep their position and take the value from `extra`,
keys only in `extra` are appended in `extra` order. -/
def dictUpdate (base extra : List (String × Json)) : List (String × Json) :=
  (base.map fun p =>
    match List.lookup p.1 extra with
    | some v => (p.1, v)
    | none => p)
  ++ extra.filter fun p => (List.lookup p.1 base).isNone

/-- The payload after `if req.extra and isinstance(req.extra, dict):
payload.update(req.extra)` (a non-empty dict is the only truthy case). -/
def payloadFields (req : ChatRequest) : List (String × Json) :=
  match req.extra with
  | none => basePayload req
  | some e => if e.isEmpty then basePayload req else dictUpdate (basePayload req) e

/-- The outbound request built for a resolved key: fixed URL, the four
headers (with `os.getenv` defaults for `APP_URL` / `APP_NAME`), the
merged payload, and the 60-second timeout. -/
def buildOutbound (env : Env) (req : ChatRequest) (api_key : String) : OutboundRequest :=
  { url := "https://openrouter.ai/api/v1/chat/completions"
    httpHeaders :=
      [("Authorization", "Bearer " ++ api_key),
       ("Content-Type", "application/json"),
       ("HTTP-Referer", env.APP_URL.getD "http://localhost:3000"),
       ("X-Title", env.APP_NAME.getD "Vibe Chatbot")]
    payload := Json.obj (payloadFields req)
    timeoutSeconds := 60 }

/-- Python `data.get(k)`: `None` unless `data` is a dict containing
`k`. -/
def jsonGet (data : Json) (k : String) : Option Json :=
  match data with
  | Json.obj fields => List.lookup k fields
  | _ => none

/-- The extraction `data["choices"][0]["message"]["content"]` followed by
`.strip()`'s attribute requirement: `some content` exactly when the path
exists and ends at a string (any failure raises inside the `try` and
becomes HTTP 500). -/
def extractContent (data : Json) : Option String :=
  match data with
  | Json.obj fields =>
    match List.lookup "choices" fields with
    | some (Json.arr (first :: _)) =>
      match first with
      | Json.obj mfields =>
        match List.lookup "message" mfields with
        | some (Json.obj cfields) =>
          match List.lookup "content" cfields with
          | some (Json.str content) => some content
          | _ => none
        | _ => none
      | _ => none
    | _ => none
  | _ => none

/-- `used_model = data.get("model", req.model)`. -/
def usedModel (data : Json) (req : ChatRequest) : Json :=
  (jsonGet data "model").getD (Json.str req.model)

/-- Lines 96-116 of the source: everything after `requests.post`
returns.  Status `≥ 400` mirrors the upstream status with the JSON body
(or `{"error": r.text}`) as detail; otherwise `r.json()` runs outside
any `try` (uncaught on a non-JSON body), then the content extraction
either succeeds (reply stripped, model from the body with the requested
model as fallback) or raises HTTP 500. -/
def handleUpstream (req : ChatRequest) (result : UpstreamResult) : HandlerOutcome :=
  match result with
  | UpstreamResult.transportError e =>
    HandlerOutcome.httpError 502 (Json.str ("Upstream request failed: " ++ e))
  | UpstreamResult.response status jsonBody text =>
    if 400 ≤ status then
      HandlerOutcome.httpError status
        (jsonBody.getD (Json.obj [("error", Json.str text)]))
    else
      match jsonBody with
      | none => HandlerOutcome.jsonDecodeError
      | some data =>
        match extractContent data with
        | some content =>
          HandlerOutcome.ok ⟨pyStrip content, usedModel data req⟩
        | none =>
          HandlerOutcome.httpError 500
            (Json.str "Unexpected response format from OpenRouter")

/-- The `POST /chat` handler.  `net` is the outbound HTTP layer
(`requests.post`); the result records the request sent, if any, and the
number of upstream calls, which the handler makes at most once (no
retry). -/
def chat (env : Env) (req : ChatRequest)
    (x_openrouter_key authorization : Option String)
    (net : OutboundRequest → UpstreamResult) : ChatResult :=
  match resolveApiKey req env x_openrouter_key authorization with
  | none =>
    { outcome := HandlerOutcome.httpError 400 (Json.str missingKeyDetail)
      sentRequest := none
      upstreamCalls := 0 }
  | some api_key =>
    let out := buildOutbound env req api_key
    { outcome := handleUpstream req (net out)
      sentRequest := some out
      upstreamCalls := 1 }

/-- Observable result of the `GET /test` route. -/
structure TestResult where
  statusCode : Nat
  body : Json
  upstreamCalls : Nat

/-- The `GET /test` handler: returns `{"status": "ok"}` (HTTP 200 from
the framework), ignoring the environment and never touching the
network. -/
def test (_env : Env) (_net : OutboundRequest → UpstreamResult) : TestResult :=
  { statusCode := 200
    body := Json.obj [("status", Json.str "ok")]
    upstreamCalls := 0 }

/-- Spec-level key resolution: the first non-empty value among the
listed sources ("first non-empty wins"). -/
def firstNonEmptySource : List (Option String) → Option String
  | [] => none
  | none :: rest => firstNonEmptySource rest
  | some s :: rest => if s = "" then firstNonEmptySource rest else some s

/-- The value `extra` supplies for a key, if any. -/
def extraVal (req : ChatRequest) (k : String) : Option Json :=
  match req.extra with
  | none => none
  | some e => List.lookup k e

/-- Whether `pat` occurs as a substring of `s`. -/
def mentionsStr (s pat : String) : Bool :=
  s.toList.tails.any fun t => hasPrefixList t pat.toList

/-! ## Concrete sample values -/

/-- A network layer that always fails at transport level. -/
def sampleNet : OutboundRequest → UpstreamResult :=
  fun _ => UpstreamResult.transportError "connection refused"

/-- Environment with none of the three variables set. -/
def emptyEnv : Env :=
  { OPENROUTER_API_KEY := none, APP_URL := none, APP_NAME := none }

/-- Environment with only the fallback credential set. -/
def envWithKey : Env :=
  { OPENROUTER_API_KEY := some "envk", APP_URL := none, APP_NAME := none }

/-- A validated request whose body `api_key` is the empty string. -/
def sampleReq : ChatRequest :=
  { messages := [{ role := "user", content := "hello" }]
    model := "openai/gpt-4o-mini"
    temperature := none
    top_p := some 1
    api_key := some ""
    extra := none }

/-- A request carrying a body key and an `extra` dict that both adds a
new key and overrides the built-in `model` key. -/
def extraReq : ChatRequest :=
  { sampleReq with
    api_key := some "bodyk"
    extra := some [("stream", Json.bool false), ("model", Json.str "override/model")] }

/-- A well-formed upstream success body. -/
def sampleSuccessBody : Json :=
  Json.obj
    [("model", Json.str "openai/gpt-4o"),
     ("choices", Json.arr
        [Json.obj [("message", Json.obj [("content", Json.str "  hi there  ")])]])]

/-- A success-status upstream body missing `choices`. -/
def malformedBody : Json :=
  Json.obj [("id", Json.str "gen-1")]

/-! ## Helper lemmas on association-list lookup and the dict merge -/

theorem lookup_append_of_some {α β : Type} [BEq α] {k : α} {v : β}
    {l₁ l₂ : List (α × β)} (h : List.lookup k l₁ = some v) :
    List.lookup k (l₁ ++ l₂) = some v := by
  induction l₁ with
  | nil => simp [List.lookup] at h
  | cons p rest ih =>
    obtain ⟨a, b⟩ := p
    rw [List.cons_append]
    cases hk : k == a with
    | true => simpa [List.lookup, hk] using by simpa [List.lookup, hk] using h
    | false =>
      simp only [List.lookup, hk] at h ⊢
      exact ih h

theorem lookup_append_of_none {α β : Type} [BEq α] {k : α}
    {l₁ l₂ : List (α × β)} (h : List.lookup k l₁ = none) :
    List.lookup k (l₁ ++ l₂) = List.lookup k l₂ := by
  induction l₁ with
  | nil => simp
  | cons p rest ih =>
    obtain ⟨a, b⟩ := p
    rw [List.cons_append]
    cases hk : k == a with
    | true => simp [List.lookup, hk] at h
    | false =>
      simp only [List.lookup, hk] at h ⊢
      exact ih h

/-- Looking a key up in the overwrite part of `dictUpdate`: the base
value survives unless `extra` supplies one. -/
theorem lookup_overwriteMap (base extra : List (String × Json)) (k : String) :
    List.lookup k (base.map fun p =>
        match List.lookup p.1 extra with
        | some v => (p.1, v)
        | none => p)
      = (List.lookup k base).map fun bv => (List.lookup k extra).getD bv := by
  induction base with
  | nil => rfl
  | cons p rest ih =>
    obtain ⟨a, b⟩ := p
    cases hae : List.lookup a extra with
    | some v =>
      cases hk : k == a with
      | true =>
        have hka : k = a := eq_of_beq hk
        simp [List.lookup, hae, hk, hka]
      | false => simpa [List.lookup, hae, hk] using ih
    | none =>
      cases hk : k == a with
      | true =>
        have hka : k = a := eq_of_beq hk
        simp [List.lookup, hae, hk, hka]
      | false => simpa [List.lookup, hae, hk] using ih

/-- Filtering with a predicate that keeps every entry whose key is `k`
does not change the lookup of `k`. -/
theorem lookup_filter_of_keep {e : List (String × Json)}
    {q : String × Json → Bool} {k : String}
    (hkeep : ∀ p, p ∈ e → p.1 = k → q p = true) :
    List.lookup k (e.filter q) = List.lookup k e := by
  induction e with
  | nil => rfl
  | cons p rest ih =>
    obtain ⟨a, b⟩ := p
    cases hk : k == a with
    | true =>
      have hka : k = a := eq_of_beq hk
      have hq : q (a, b) = true :=
        hkeep (a, b) (List.mem_cons_self _ _) hka.symm
      simp [List.filter, hq, List.lookup, hk]
    | false =>
      have ihr := ih fun p hp => hkeep p (List.mem_cons_of_mem _ hp)
      cases hq : q (a, b) with
      | true => simpa [List.filter, hq, List.lookup, hk] using ihr
      | false => simpa [List.filter, hq, List.lookup, hk] using ihr

theorem lookup_filter_of_none {e : List (String × Json)}
    {q : String × Json → Bool} {k : String}
    (h : List.lookup k e = none) :
    List.lookup k (e.filter q) = none := by
  induction e with
  | nil => rfl
  | cons p rest ih =>
    obtain ⟨a, b⟩ := p
    cases hk : k == a with
    | true => simp [List.lookup, hk] at h
    | false =>
      simp only [List.lookup, hk] at h
      cases hq : q (a, b) with
      | true => simpa [List.filter, hq, List.lookup, hk] using ih h
      | false => simpa [List.filter, hq] using ih h

/-- A key that `extra` maps gets `extra`'s value after the merge. -/
theorem lookup_dictUpdate_of_extra {base extra : List (String × Json)}
    {k : String} {v : Json} (h : List.lookup k extra = some v) :
    List.lookup k (dictUpdate base extra) = some v := by
  unfold dictUpdate
  cases hb : List.lookup k base with
  | some bv =>
    apply lookup_append_of_some
    rw [lookup_overwriteMap, hb, h]
    rfl
  | none =>
    rw [lookup_append_of_none (by rw [lookup_overwriteMap, hb]; rfl)]
    rw [lookup_filter_of_keep fun p hp hpk => by rw [hpk, hb]; rfl]
    exact h

/-- A key that `extra` does not map keeps its base lookup after the
merge. -/
theorem lookup_dictUpdate_of_base {base extra : List (String × Json)}
    {k : String} (h : List.lookup k extra = none) :
    List.lookup k (dictUpdate base extra) = List.lookup k base := by
  unfold dictUpdate
  cases hb : List.lookup k base with
  | some bv =>
    apply lookup_append_of_some
    rw [lookup_overwriteMap, hb, h]
    rfl
  | none =>
    rw [lookup_append_of_none (by rw [lookup_overwriteMap, hb]; rfl)]
    exact lookup_filter_of_none h

/-- Keys supplied by `extra` end up in the payload with `extra`'s
value. -/
theorem lookup_payloadFields_of_extra {req : ChatRequest} {k : String}
    {v : Json} (h : extraVal req k = some v) :
    List.lookup k (payloadFields req) = some v := by
  unfold extraVal at h
  unfold payloadFields
  cases he : req.extra with
  | none => rw [he] at h; cases h
  | some e =>
    rw [he] at h
    cases hne : e.isEmpty with
    | true =>
      rw [List.isEmpty_iff.mp hne] at h
      cases h
    | false =>
      simp only [hne, Bool.false_eq_true, if_false]
      exact lookup_dictUpdate_of_extra h

/-- Keys not supplied by `extra` keep their base-payload value. -/
theorem lookup_payloadFields_of_base {req : ChatRequest} {k : String}
    (h : extraVal req k = none) :
    List.lookup k (payloadFields req) = List.lookup k (basePayload req) := by
  unfold extraVal at h
  unfold payloadFields
  cases he : req.extra with
  | none => rfl
  | some e =>
    rw [he] at h
    cases hne : e.isEmpty with
    | true => simp [hne]
    | false =>
      simp only [hne, Bool.false_eq_true, if_false]
      exact lookup_dictUpdate_of_base h

/-! ## Helper lemmas on key resolution -/

/-- Spec-level resolution steps through the head by truthiness. -/
theorem firstNonEmptySource_cons (o : Option String) (rest : List (Option String)) :
    firstNonEmptySource (o :: rest)
      = if pyTruthy o then o else firstNonEmptySource rest := by
  cases o with
  | none => simp [firstNonEmptySource, pyTruthy]
  | some s =>
    by_cases hs : s = ""
    · simp [firstNonEmptySource, pyTruthy, hs]
    · simp [firstNonEmptySource, pyTruthy, hs]

/-- Every list is a prefix of itself. -/
theorem hasPrefixList_self (l : List Char) : hasPrefixList l l = true := by
  induction l with
  | nil => rfl
  | cons c cs ih => simp [hasPrefixList, ih]

/-- A string mentions each of its suffixes. -/
theorem mentionsStr_append_right (s e : String) :
    mentionsStr (s ++ e) e = true := by
  unfold mentionsStr
  apply List.any_eq_true.mpr
  refine ⟨e.toList, ?_, hasPrefixList_self _⟩
  rw [List.mem_tails]
  show e.toList <:+ (s ++ e).toList
  have h : (s ++ e).toList = s.toList ++ e.toList := by simp [String.toList]
  rw [h]
  exact List.suffix_append s.toList e.toList

/-! ## Claims -/

/-- Claim C1: for every `POST /chat` request, the handler resolves the
API key as the first non-empty value in the fixed order body `api_key`
field, `OPENROUTER_API_KEY` environment variable, `x-openrouter-key`
header, Bearer token of the `Authorization` header; an empty string in a
higher-precedence source is skipped in favour of a lower-precedence
non-empty one, and the resolved key is the one sent upstream as
`Authorization: Bearer <key>`. -/
theorem chat_key_precedence (env : Env) (req : ChatRequest)
    (xk az : Option String) (net : OutboundRequest → UpstreamResult) :
    resolveApiKey req env xk az
      = firstNonEmptySource
          [req.api_key, env.OPENROUTER_API_KEY, xk, bearerKey az]
    ∧ ∀ k, resolveApiKey req env xk az = some k →
        ∃ out, (chat env req xk az net).sentRequest = some out
          ∧ List.lookup "Authorization" out.httpHeaders
              = some ("Bearer " ++ k) := by
  constructor
  · unfold resolveApiKey
    simp only [firstNonEmptySource_cons]
    cases h1 : pyTruthy req.api_key <;>
      cases h2 : pyTruthy env.OPENROUTER_API_KEY <;>
        cases h3 : pyTruthy xk <;>
          cases h4 : pyTruthy (bearerKey az) <;>
            simp [pyOrStr, h1, h2, h3, h4, firstNonEmptySource]
  · intro k hk
    refine ⟨buildOutbound env req k, by simp [chat, hk], rfl⟩

/-- Witness for C1: body key is the empty string and the custom header
is empty, so the environment variable (the next source in precedence
order) wins and is sent as the Bearer credential upstream. -/
theorem chat_key_precedence_witness :
    resolveApiKey sampleReq envWithKey (some "") none
      = firstNonEmptySource
          [sampleReq.api_key, envWithKey.OPENROUTER_API_KEY, some "", bearerKey none]
    ∧ (resolveApiKey sampleReq envWithKey (some "") none = some "envk"
        ∧ ∃ out,
            (chat envWithKey sampleReq (some "") none sampleNet).sentRequest = some out
            ∧ List.lookup "Authorization" out.httpHeaders
                = some ("Bearer " ++ "envk")) :=
  ⟨(chat_key_precedence envWithKey sampleReq (some "") none sampleNet).1,
   rfl,
   (chat_key_precedence envWithKey sampleReq (some "") none sampleNet).2 "envk" rfl⟩

/-- Claim C2: on an upstream response with status below 400 whose JSON
body contains `choices[0].message.content`, the handler returns a
`ChatResponse` whose reply is that content with surrounding whitespace
stripped and whose model is the upstream body's top-level `model` field
when present, else the requested model string. -/
theorem chat_success_reply_and_model (env : Env) (req : ChatRequest)
    (xk az : Option String) (k : String) (status : Nat) (data : Json)
    (content text : String)
    (hk : resolveApiKey req env xk az = some k)
    (hs : status < 400)
    (hc : extractContent data = some content) :
    (chat env req xk az fun _ =>
        UpstreamResult.response status (some data) text).outcome
      = HandlerOutcome.ok
          ⟨pyStrip content, (jsonGet data "model").getD (Json.str req.model)⟩ := by
  simp [chat, hk, handleUpstream, Nat.not_le.mpr hs, hc, usedModel]

/-- Witness for C2: a 200 response with content `"  hi there  "` and
upstream model `"openai/gpt-4o"` yields that reply trimmed and the
upstream model. -/
theorem chat_success_reply_and_model_witness :
    (resolveApiKey sampleReq envWithKey none none = some "envk"
      ∧ (200 : Nat) < 400
      ∧ extractContent sampleSuccessBody = some "  hi there  ")
    ∧ (chat envWithKey sampleReq none none fun _ =>
          UpstreamResult.response 200 (some sampleSuccessBody) "raw").outcome
        = HandlerOutcome.ok
            ⟨pyStrip "  hi there  ",
             (jsonGet sampleSuccessBody "model").getD (Json.str sampleReq.model)⟩ :=
  ⟨⟨rfl, by decide, rfl⟩,
   chat_success_reply_and_model envWithKey sampleReq none none "envk" 200
     sampleSuccessBody "  hi there  " "raw" rfl (by decide) rfl⟩

/-- Claim C3: when all four key sources are absent or empty, the handler
fails with HTTP 400, the detail message mentions all four resolution
methods, and no outbound call is made. -/
theorem chat_missing_key_400 (env : Env) (req : ChatRequest)
    (xk az : Option String) (net : OutboundRequest → UpstreamResult)
    (h1 : pyTruthy req.api_key = false)
    (h2 : pyTruthy env.OPENROUTER_API_KEY = false)
    (h3 : pyTruthy xk = false)
    (h4 : pyTruthy (bearerKey az) = false) :
    chat env req xk az net
      = { outcome := HandlerOutcome.httpError 400 (Json.str missingKeyDetail)
          sentRequest := none
          upstreamCalls := 0 }
    ∧ mentionsStr missingKeyDetail "api_key" = true
    ∧ mentionsStr missingKeyDetail "OPENROUTER_API_KEY" = true
    ∧ mentionsStr missingKeyDetail "x-openrouter-key" = true
    ∧ mentionsStr missingKeyDetail "Authorization: Bearer" = true := by
  have hr : resolveApiKey req env xk az = none := by
    unfold resolveApiKey
    simp [pyOrStr, h1, h2, h3, h4]
  refine ⟨by simp [chat, hr], ?_, ?_, ?_, ?_⟩ <;> decide

/-- Witness for C3: empty body key, unset environment, empty custom
header, non-Bearer `Authorization` header. -/
theorem chat_missing_key_400_witness :
    (pyTruthy sampleReq.api_key = false
      ∧ pyTruthy emptyEnv.OPENROUTER_API_KEY = false
      ∧ pyTruthy (some "") = false
      ∧ pyTruthy (bearerKey (some "Basic abc")) = false)
    ∧ chat emptyEnv sampleReq (some "") (some "Basic abc") sampleNet
        = { outcome := HandlerOutcome.httpError 400 (Json.str missingKeyDetail)
            sentRequest := none
            upstreamCalls := 0 }
    ∧ mentionsStr missingKeyDetail "api_key" = true :=
  ⟨⟨rfl, rfl, rfl, rfl⟩,
   (chat_missing_key_400 emptyEnv sampleReq (some "") (some "Basic abc")
      sampleNet rfl rfl rfl rfl).1,
   (chat_missing_key_400 emptyEnv sampleReq (some "") (some "Basic abc")
      sampleNet rfl rfl rfl rfl).2.1⟩

/-- Claim C4: an upstream response with status at least 400 is surfaced
with exactly that status, the detail being the parsed JSON body when the
body is valid JSON and `{"error": <raw text>}` otherwise. -/
theorem chat_upstream_error_status (env : Env) (req : ChatRequest)
    (xk az : Option String) (k : String) (status : Nat)
    (jsonBody : Option Json) (text : String)
    (hk : resolveApiKey req env xk az = some k)
    (hs : 400 ≤ status) :
    (chat env req xk az fun _ =>
        UpstreamResult.response status jsonBody text).outcome
      = HandlerOutcome.httpError status
          (jsonBody.getD (Json.obj [("error", Json.str text)])) := by
  simp [chat, hk, handleUpstream, hs]

/-- Witness for C4: a 429 with JSON body `{"error": "rate limited"}` is
surfaced as status 429 with exactly that body as detail. -/
theorem chat_upstream_error_status_witness :
    (resolveApiKey sampleReq envWithKey none none = some "envk"
      ∧ (400 : Nat) ≤ 429)
    ∧ (chat envWithKey sampleReq none none fun _ =>
          UpstreamResult.response 429
            (some (Json.obj [("error", Json.str "rate limited")]))
            "rate limited text").outcome
        = HandlerOutcome.httpError 429
            ((some (Json.obj [("error", Json.str "rate limited")])).getD
              (Json.obj [("error", Json.str "rate limited text")])) :=
  ⟨⟨rfl, by decide⟩,
   chat_upstream_error_status envWithKey sampleReq none none "envk" 429
     (some (Json.obj [("error", Json.str "rate limited")]))
     "rate limited text" rfl (by decide)⟩

/-- Claim C5: an upstream response with status below 400 whose JSON body
lacks the `choices[0].message.content` shape makes the handler fail with
HTTP 500 and the generic unexpected-response-format message. -/
theorem chat_malformed_500 (env : Env) (req : ChatRequest)
    (xk az : Option String) (k : String) (status : Nat) (data : Json)
    (text : String)
    (hk : resolveApiKey req env xk az = some k)
    (hs : status < 400)
    (hm : extractContent data = none) :
    (chat env req xk az fun _ =>
        UpstreamResult.response status (some data) text).outcome
      = HandlerOutcome.httpError 500
          (Json.str "Unexpected response format from OpenRouter") := by
  simp [chat, hk, handleUpstream, Nat.not_le.mpr hs, hm]

/-- Witness for C5: a 200 response whose body has no `choices` key. -/
theorem chat_malformed_500_witness :
    (resolveApiKey sampleReq envWithKey none none = some "envk"
      ∧ (200 : Nat) < 400
      ∧ extractContent malformedBody = none)
    ∧ (chat envWithKey sampleReq none none fun _ =>
          UpstreamResult.response 200 (some malformedBody) "raw").outcome
        = HandlerOutcome.httpError 500
            (Json.str "Unexpected response format from OpenRouter") :=
  ⟨⟨rfl, by decide, rfl⟩,
   chat_malformed_500 envWithKey sampleReq none none "envk" 200 malformedBody
     "raw" rfl (by decide) rfl⟩

/-- Claim C6: a transport-level failure of the outbound call makes the
handler fail with HTTP 502, the detail message contains the underlying
transport error text, and exactly one upstream call is made (no
retry). -/
theorem chat_transport_502 (env : Env) (req : ChatRequest)
    (xk az : Option String) (k e : String)
    (hk : resolveApiKey req env xk az = some k) :
    (chat env req xk az fun _ => UpstreamResult.transportError e).outcome
      = HandlerOutcome.httpError 502
          (Json.str ("Upstream request failed: " ++ e))
    ∧ (chat env req xk az fun _ => UpstreamResult.transportError e).upstreamCalls = 1
    ∧ mentionsStr ("Upstream request failed: " ++ e) e = true := by
  refine ⟨by simp [chat, hk, handleUpstream], by simp [chat, hk], ?_⟩
  exact mentionsStr_append_right _ e

/-- Witness for C6: a connection error is surfaced as a 502 whose detail
embeds the transport error text. -/
theorem chat_transport_502_witness :
    resolveApiKey sampleReq envWithKey none none = some "envk"
    ∧ ((chat envWithKey sampleReq none none fun _ =>
          UpstreamResult.transportError "connection refused").outcome
        = HandlerOutcome.httpError 502
            (Json.str ("Upstream request failed: " ++ "connection refused"))
      ∧ (chat envWithKey sampleReq none none fun _ =>
          UpstreamResult.transportError "connection refused").upstreamCalls = 1
      ∧ mentionsStr ("Upstream request failed: " ++ "connection refused")
          "connection refused" = true) :=
  ⟨rfl,
   chat_transport_502 envWithKey sampleReq none none "envk"
     "connection refused" rfl⟩

/-- Claim C7: whenever a key resolves, the single outbound request goes
to the fixed OpenRouter URL with a 60-second timeout, the four
documented headers (with environment defaults), and a JSON payload whose
keys are the built-ins `model`, `messages`, `temperature`, `top_p`
shallow-merged with `extra`: keys in `extra` take `extra`'s value
(overwriting built-ins) and all other keys keep their built-in value. -/
theorem chat_outbound_request (env : Env) (req : ChatRequest)
    (xk az : Option String) (net : OutboundRequest → UpstreamResult)
    (k : String)
    (hk : resolveApiKey req env xk az = some k) :
    ∃ out, (chat env req xk az net).sentRequest = some out
      ∧ (chat env req xk az net).upstreamCalls = 1
      ∧ out.url = "https://openrouter.ai/api/v1/chat/completions"
      ∧ out.timeoutSeconds = 60
      ∧ out.httpHeaders =
          [("Authorization", "Bearer " ++ k),
           ("Content-Type", "application/json"),
           ("HTTP-Referer", env.APP_URL.getD "http://localhost:3000"),
           ("X-Title", env.APP_NAME.getD "Vibe Chatbot")]
      ∧ ∃ fields, out.payload = Json.obj fields
          ∧ (∀ kk v, extraVal req kk = some v →
              List.lookup kk fields = some v)
          ∧ (∀ kk, extraVal req kk = none →
              List.lookup kk fields = List.lookup kk (basePayload req)) := by
  refine ⟨buildOutbound env req k, by simp [chat, hk], by simp [chat, hk],
    rfl, rfl, rfl, payloadFields req, rfl, ?_, ?_⟩
  · intro kk v h
    exact lookup_payloadFields_of_extra h
  · intro kk h
    exact lookup_payloadFields_of_base h

/-- Witness for C7: with `extra = {"stream": false, "model":
"override/model"}`, the payload takes `extra`'s `model` and `stream`
values while `messages` keeps its built-in value. -/
theorem chat_outbound_request_witness :
    resolveApiKey extraReq emptyEnv none none = some "bodyk"
    ∧ (∃ out, (chat emptyEnv extraReq none none sampleNet).sentRequest = some out
        ∧ (chat emptyEnv extraReq none none sampleNet).upstreamCalls = 1
        ∧ out.url = "https://openrouter.ai/api/v1/chat/completions"
        ∧ out.timeoutSeconds = 60
        ∧ out.httpHeaders =
            [("Authorization", "Bearer " ++ "bodyk"),
             ("Content-Type", "application/json"),
             ("HTTP-Referer", emptyEnv.APP_URL.getD "http://localhost:3000"),
             ("X-Title", emptyEnv.APP_NAME.getD "Vibe Chatbot")]
        ∧ ∃ fields, out.payload = Json.obj fields
            ∧ (∀ kk v, extraVal extraReq kk = some v →
                List.lookup kk fields = some v)
            ∧ (∀ kk, extraVal extraReq kk = none →
                List.lookup kk fields = List.lookup kk (basePayload extraReq))) :=
  ⟨rfl, chat_outbound_request emptyEnv extraReq none none sampleNet "bodyk" rfl⟩

/-- Claim C8: the Bearer source yields a token exactly when the
`Authorization` header value starts with the case-insensitive prefix
`"Bearer "`; the token is everything after the first space, trimmed of
surrounding whitespace, and a non-matching header contributes no key. -/
theorem bearer_token_extraction (a t : String) :
    bearerKey (some a) = some t
      ↔ (hasPrefixList (pyLower a).toList ("bearer ".toList) = true
          ∧ t = pyStrip (afterFirstSpace a)) := by
  have hdef : bearerKey (some a)
      = if a != "" && hasPrefixList (pyLower a).toList ("bearer ".toList) then
          some (pyStrip (afterFirstSpace a))
        else none := rfl
  rw [hdef]
  cases hp : hasPrefixList (pyLower a).toList ("bearer ".toList) with
  | true =>
    have hne : (a != "") = true := by
      rcases eq_or_ne a "" with h | h
      · subst h
        exact absurd hp (by decide)
      · simp [h]
    rw [hne]
    have hred : (if (true && true) = true then
          some (pyStrip (afterFirstSpace a)) else none)
        = some (pyStrip (afterFirstSpace a)) := rfl
    rw [hred]
    constructor
    · intro h
      exact ⟨rfl, (Option.some_inj.mp h).symm⟩
    · rintro ⟨-, ht⟩
      rw [ht]
  | false =>
    have hred : (if (a != "" && false) = true then
          some (pyStrip (afterFirstSpace a)) else none)
        = none := by
      rw [Bool.and_false]
      rfl
    rw [hred]
    simp

/-- Witness for C8: a mixed-case header with extra inner and trailing
whitespace yields the trimmed token after the first space. -/
theorem bearer_token_extraction_witness :
    bearerKey (some "BeArEr  my-key  ") = some "my-key" :=
  (bearer_token_extraction "BeArEr  my-key  " "my-key").mpr
    ⟨by decide, by decide⟩

/-- Claim C9: `GET /test` returns `{"status": "ok"}` with HTTP 200
whatever the environment and network layer, and makes no upstream
call. -/
theorem test_route_ok (env : Env) (net : OutboundRequest → UpstreamResult) :
    test env net
      = { statusCode := 200
          body := Json.obj [("status", Json.str "ok")]
          upstreamCalls := 0 } := rfl

/-- Claim C10: an upstream response with success status but a non-JSON
body escapes the handler as an uncaught JSON-decoding exception — the
`r.json()` call on the success path sits outside every `try` — so the
outcome is neither a `ChatResponse` nor any `HTTPException` of the
spec's error taxonomy. -/
theorem chat_nonjson_success_uncaught (env : Env) (req : ChatRequest)
    (xk az : Option String) (k : String) (status : Nat) (text : String)
    (hk : resolveApiKey req env xk az = some k)
    (hs : status < 400) :
    (chat env req xk az fun _ =>
        UpstreamResult.response status none text).outcome
      = HandlerOutcome.jsonDecodeError
    ∧ (∀ s d, (chat env req xk az fun _ =>
          UpstreamResult.response status none text).outcome
        ≠ HandlerOutcome.httpError s d)
    ∧ (∀ r, (chat env req xk az fun _ =>
          UpstreamResult.response status none text).outcome
        ≠ HandlerOutcome.ok r) := by
  have h : (chat env req xk az fun _ =>
      UpstreamResult.response status none text).outcome
        = HandlerOutcome.jsonDecodeError := by
    simp [chat, hk, handleUpstream, Nat.not_le.mpr hs]
  refine ⟨h, fun s d => ?_, fun r => ?_⟩
  · rw [h]
    exact fun hcon => HandlerOutcome.noConfusion hcon
  · rw [h]
    exact fun hcon => HandlerOutcome.noConfusion hcon

/-- Witness for C10: a 200 response whose body is HTML, so `r.json()`
raises outside every `try`. -/
theorem chat_nonjson_success_uncaught_witness :
    (resolveApiKey sampleReq envWithKey none none = some "envk"
      ∧ (200 : Nat) < 400)
    ∧ (chat envWithKey sampleReq none none fun _ =>
          UpstreamResult.response 200 none "<!DOCTYPE html>").outcome
        = HandlerOutcome.jsonDecodeError :=
  ⟨⟨rfl, by decide⟩,
   (chat_nonjson_success_uncaught envWithKey sampleReq none none "envk" 200
      "<!DOCTYPE html>" rfl (by decide)).1⟩

end ChatProxy
